import Mathlib

/-!
Verification of the RGB consensus core (seal layer, operation model,
state-schema validation) against its natural-language specification.

The Rust sources are embedded shallowly: pure functions become Lean
functions, machine integers become `Nat`/`Int` with explicit reduction
modulo `2^w` where overflow matters, fallible paths become `Option` /
`Except`, and a `panic!` becomes an `Except.error` carrying the panic
message. Components that live outside the provided sources (the bp-core
blind seals, the commit-verify hashing engine, the owned-state strategy
types and the validation `Status` accumulator) are modelled from the
specification text and are marked `Modelled from the spec:` in their doc
comments.
-/

namespace RGBCore

/-! ## Bytes and machine words -/

/-- Reduce a natural number to a 32-bit word. -/
def w32 (n : Nat) : Nat := n % 4294967296

/-- Right rotation of a 32-bit word by `k` positions. -/
def rotr32 (k n : Nat) : Nat := ((n >>> k) ||| (n <<< (32 - k))) % 4294967296

/-- `k` bytes of `n`, big-endian (most significant byte first). -/
def toBytesBE : Nat → Nat → List Nat
  | 0, _ => []
  | k + 1, n => toBytesBE k (n >>> 8) ++ [n % 256]

/-- `k` bytes of `n`, little-endian (least significant byte first). -/
def toBytesLE : Nat → Nat → List Nat
  | 0, _ => []
  | k + 1, n => n % 256 :: toBytesLE k (n >>> 8)

/-- ASCII bytes of a string constant (used for the commitment tags). -/
def strBytes (s : String) : List Nat := s.toList.map Char.toNat

/-! ## SHA-256 (FIPS 180-4)

Modelled from the `sha2` crate behind `commit_verify::Sha256` (external
to this repository): the standard SHA-256 function over byte streams,
bytes as naturals below 256. -/

/-- SHA-256 small sigma-zero message-schedule function. -/
def ssig0 (x : Nat) : Nat := rotr32 7 x ^^^ rotr32 18 x ^^^ (x >>> 3)

/-- SHA-256 small sigma-one message-schedule function. -/
def ssig1 (x : Nat) : Nat := rotr32 17 x ^^^ rotr32 19 x ^^^ (x >>> 10)

/-- SHA-256 big sigma-zero round function. -/
def bsig0 (x : Nat) : Nat := rotr32 2 x ^^^ rotr32 13 x ^^^ rotr32 22 x

/-- SHA-256 big sigma-one round function. -/
def bsig1 (x : Nat) : Nat := rotr32 6 x ^^^ rotr32 11 x ^^^ rotr32 25 x

/-- SHA-256 choose function (complement taken within 32 bits). -/
def ch (x y z : Nat) : Nat := (x &&& y) ^^^ ((x ^^^ 4294967295) &&& z)

/-- SHA-256 majority function. -/
def maj (x y z : Nat) : Nat := (x &&& y) ^^^ (x &&& z) ^^^ (y &&& z)

/-- The 64 SHA-256 round constants. -/
def sha256K : List Nat :=
  [1116352408, 1899447441, 3049323471, 3921009573, 961987163, 1508970993, 2453635748, 2870763221,
   3624381080, 310598401, 607225278, 1426881987, 1925078388, 2162078206, 2614888103, 3248222580,
   3835390401, 4022224774, 264347078, 604807628, 770255983, 1249150122, 1555081692, 1996064986,
   2554220882, 2821834349, 2952996808, 3210313671, 3336571891, 3584528711, 113926993, 338241895,
   666307205, 773529912, 1294757372, 1396182291, 1695183700, 1986661051, 2177026350, 2456956037,
   2730485921, 2820302411, 3259730800, 3345764771, 3516065817, 3600352804, 4094571909, 275423344,
   430227734, 506948616, 659060556, 883997877, 958139571, 1322822218, 1537002063, 1747873779,
   1955562222, 2024104815, 2227730452, 2361852424, 2428436474, 2756734187, 3204031479, 3329325298]

/-- SHA-256 working state: eight 32-bit registers. -/
structure Hash8 where
  a : Nat
  b : Nat
  c : Nat
  d : Nat
  e : Nat
  f : Nat
  g : Nat
  h : Nat
  deriving Repr, DecidableEq

/-- The SHA-256 initial hash value. -/
def sha256H0 : Hash8 :=
  ⟨1779033703, 3144134277, 1013904242, 2773480762,
   1359893119, 2600822924, 528734635, 1541459225⟩

/-- Pack a byte stream into 32-bit words, big-endian; an incomplete
trailing group is dropped (never hit on padded input). -/
def bytesToWordsBE : List Nat → List Nat
  | b0 :: b1 :: b2 :: b3 :: rest =>
    (((b0 % 256) <<< 24) + ((b1 % 256) <<< 16) + ((b2 % 256) <<< 8) + (b3 % 256))
      :: bytesToWordsBE rest
  | _ => []

/-- The next message-schedule word from the words produced so far. -/
def nextWord (ws : List Nat) : Nat :=
  let t := ws.length
  w32 (ssig1 (ws.getD (t - 2) 0) + ws.getD (t - 7) 0 + ssig0 (ws.getD (t - 15) 0) +
    ws.getD (t - 16) 0)

/-- Extend the message schedule by `n` further words. -/
def extendWords : List Nat → Nat → List Nat
  | ws, 0 => ws
  | ws, n + 1 => extendWords (ws ++ [nextWord ws]) n

/-- The 64-entry message schedule of one 64-byte block. -/
def msgSchedule (block : List Nat) : List Nat := extendWords (bytesToWordsBE block) 48

/-- One SHA-256 round: fold one (round constant, schedule word) pair
into the working state. -/
def sha256Round (s : Hash8) (kw : Nat × Nat) : Hash8 :=
  let t1 := w32 (s.h + bsig1 s.e + ch s.e s.f s.g + kw.1 + kw.2)
  let t2 := w32 (bsig0 s.a + maj s.a s.b s.c)
  ⟨w32 (t1 + t2), s.a, s.b, s.c, w32 (s.d + t1), s.e, s.f, s.g⟩

/-- SHA-256 compression of one 64-byte block into the running state. -/
def sha256Compress (s : Hash8) (block : List Nat) : Hash8 :=
  let t := (sha256K.zip (msgSchedule block)).foldl sha256Round s
  ⟨w32 (s.a + t.a), w32 (s.b + t.b), w32 (s.c + t.c), w32 (s.d + t.d),
   w32 (s.e + t.e), w32 (s.f + t.f), w32 (s.g + t.g), w32 (s.h + t.h)⟩

/-- SHA-256 padding: append `128`, zeros up to 56 mod 64, and the
8-byte big-endian bit length. -/
def padMessage (msg : List Nat) : List Nat :=
  let L := msg.length
  let k := (119 - L % 64) % 64
  msg ++ 128 :: List.replicate k 0 ++ toBytesBE 8 (L * 8)

/-- Split a byte stream into 64-byte blocks, with a fuel argument for
structural (hence kernel-reducible) recursion. -/
def chunksAux : Nat → List Nat → List (List Nat)
  | 0, _ => []
  | _, [] => []
  | fuel + 1, b :: bs => ((b :: bs).take 64) :: chunksAux fuel ((b :: bs).drop 64)

/-- Split a byte stream into 64-byte blocks. -/
def chunks64 (l : List Nat) : List (List Nat) := chunksAux l.length l

/-- Serialize the eight hash registers as 32 digest bytes, big-endian. -/
def digestBytes (s : Hash8) : List Nat :=
  toBytesBE 4 s.a ++ toBytesBE 4 s.b ++ toBytesBE 4 s.c ++ toBytesBE 4 s.d ++
  toBytesBE 4 s.e ++ toBytesBE 4 s.f ++ toBytesBE 4 s.g ++ toBytesBE 4 s.h

/-- SHA-256 of a byte stream. -/
def sha256 (msg : List Nat) : List Nat :=
  digestBytes ((chunks64 (padMessage msg)).foldl sha256Compress sha256H0)

/-- The LNPBP-style tagged hash described by the specification:
`SHA256(SHA256(tag) || SHA256(tag) || msg)`. -/
def lnpbpTaggedHash (tag msg : List Nat) : List Nat :=
  sha256 (sha256 tag ++ sha256 tag ++ msg)

/-! ## Seal layer (`src/contract/seal.rs`) -/

/-- A transaction id: 32 raw bytes. -/
structure Txid where
  bytes : List Nat
  deriving DecidableEq, Repr

/-- The layer-1 tag (`crate::Layer1`, re-exported at the crate root). -/
inductive Layer1
  | bitcoin
  | liquid
  deriving DecidableEq, Repr

/-- Modelled from the spec: the bp-core seal close method (opret-first
or tapret-first commitment placement); outside this repository. -/
inductive CloseMethod
  | opretFirst
  | tapretFirst
  deriving DecidableEq, Repr

/-- A concrete transaction outpoint. -/
structure Outpoint where
  txid : Txid
  vout : Nat
  deriving DecidableEq, Repr

/-- Modelled from the spec: the txid-or-witness pointer of a revealed
seal — either the witness-transaction placeholder or a concrete txid
(bp-core `TxPtr`, outside this repository). -/
inductive TxPtr
  | witnessTx
  | whole (txid : Txid)
  deriving DecidableEq, Repr

/-- Modelled from the spec: a revealed blind seal
`(close-method, txid-or-witness, vout, blinding nonce)` (bp-core
`ChainBlindSeal`, aliased `GraphSeal`, outside this repository). -/
structure GraphSeal where
  method : CloseMethod
  txid : TxPtr
  vout : Nat
  blinding : Nat
  deriving DecidableEq, Repr

/-- `outpoint_or`: the seal's outpoint, substituting the
witness-transaction placeholder (if any) with the given txid. -/
def GraphSeal.outpointOr (s : GraphSeal) (witness : Txid) : Outpoint :=
  ⟨match s.txid with
    | .witnessTx => witness
    | .whole t => t,
   s.vout⟩

/-- `outpoint`: `some` concrete outpoint when the txid is concrete,
`none` while it is still the witness placeholder. -/
def GraphSeal.outpoint (s : GraphSeal) : Option Outpoint :=
  match s.txid with
  | .witnessTx => none
  | .whole t => some ⟨t, s.vout⟩

/-- An explicit seal over a concrete txid (bp-core
`ExplicitSeal<Txid>`): close method plus concrete outpoint. -/
structure ExplicitSealTxid where
  method : CloseMethod
  outpoint : Outpoint
  deriving DecidableEq, Repr

/-- `XSeal<U>`: a seal tagged with its layer 1 (Bitcoin, tag byte 0,
or Liquid, tag byte 1). -/
inductive XSeal (U : Type)
  | bitcoin (sl : U)
  | liquid (sl : U)
  deriving DecidableEq, Repr

/-- `OutputSeal = XSeal<ExplicitSeal<Txid>>`. -/
abbrev OutputSeal := XSeal ExplicitSealTxid

/-- `XSeal::layer1`. -/
def XSeal.layer1 {U : Type} : XSeal U → Layer1
  | .bitcoin _ => .bitcoin
  | .liquid _ => .liquid

/-- The inner seal of either variant (statement helper; both arms of
the Rust `match` expose it). -/
def XSeal.inner {U : Type} : XSeal U → U
  | .bitcoin sl => sl
  | .liquid sl => sl

/-- `XSeal::with(layer1, seal)` (named `withLayer1` because `with` is a
Lean keyword). -/
def XSeal.withLayer1 {U : Type} (layer1 : Layer1) (sl : U) : XSeal U :=
  match layer1 with
  | .bitcoin => .bitcoin sl
  | .liquid => .liquid sl

/-- `WitnessId`: the id of a witness transaction, tagged by layer 1. -/
inductive WitnessId
  | bitcoin (txid : Txid)
  | liquid (txid : Txid)
  deriving DecidableEq, Repr

/-- The layer-1 tag of a witness id (statement helper). -/
def WitnessId.layer1 : WitnessId → Layer1
  | .bitcoin _ => .bitcoin
  | .liquid _ => .liquid

/-- The raw txid of a witness id (statement helper). -/
def WitnessId.txid : WitnessId → Txid
  | .bitcoin t => t
  | .liquid t => t

/-- `XSeal::try_to_output_seal(witness_id)`: on matching layer 1,
an explicit output seal substituting the witness placeholder with the
witness txid; on mismatch, `Err(self)`. -/
def XSeal.try_to_output_seal (s : XSeal GraphSeal) (witness_id : WitnessId) :
    Except (XSeal GraphSeal) OutputSeal :=
  match s, witness_id with
  | .bitcoin sl, .bitcoin txid => .ok (.bitcoin ⟨sl.method, sl.outpointOr txid⟩)
  | .liquid sl, .liquid txid => .ok (.liquid ⟨sl.method, sl.outpointOr txid⟩)
  | me, _ => .error me

/-! ## `WitnessPos` and `WitnessOrd` (`src/contract/seal.rs`) -/

/-- `WitnessPos`: a confirmed height/timestamp position of a witness
transaction. -/
structure WitnessPos where
  height : Nat
  timestamp : Int
  deriving DecidableEq, Repr

/-- `WitnessPos::new`: rejects a zero height and any timestamp before
the Bitcoin genesis timestamp 1231006505. -/
def WitnessPos.new (height : Nat) (timestamp : Int) : Option WitnessPos :=
  if height = 0 ∨ timestamp < 1231006505 then none
  else some ⟨height, timestamp⟩

/-- The `NonZeroU32::new(self.height)` conversion inside
`WitnessPos::height()`: the accessor panics (`expect("invariant")`)
exactly when this returns `none`. -/
def WitnessPos.heightNonZero (p : WitnessPos) : Option Nat :=
  if p.height = 0 then none else some p.height

/-- The comparison on `i64` (Rust `Ord for i64`). -/
def intCmp (a b : Int) : Ordering :=
  if a < b then .lt else if a = b then .eq else .gt

/-- `Ord for WitnessPos`: compares the timestamps only. -/
def WitnessPos.cmp (a b : WitnessPos) : Ordering := intCmp a.timestamp b.timestamp

/-- `WitnessOrd`: on-chain at a `WitnessPos`, or off-chain. -/
inductive WitnessOrd
  | onChain (pos : WitnessPos)
  | offChain
  deriving DecidableEq, Repr

/-- The derived `Ord for WitnessOrd`: variants in declaration order
(`OnChain` before `OffChain`), `OnChain` payloads by `WitnessPos::cmp`. -/
def WitnessOrd.cmp : WitnessOrd → WitnessOrd → Ordering
  | .onChain a, .onChain b => WitnessPos.cmp a b
  | .onChain _, .offChain => .lt
  | .offChain, .onChain _ => .gt
  | .offChain, .offChain => .eq

/-- `WitnessOrd::with_mempool_or_height`: on-chain when the pair forms
a valid `WitnessPos`, silently off-chain otherwise. -/
def WitnessOrd.with_mempool_or_height (height : Nat) (timestamp : Int) : WitnessOrd :=
  match WitnessPos.new height timestamp with
  | some pos => .onChain pos
  | none => .offChain

/-! ## `XSeal` string parsing (`src/contract/seal.rs`) -/

/-- Rust `str::split_once`: split at the first occurrence of `c`. -/
def splitOnce (c : Char) : List Char → Option (List Char × List Char)
  | [] => none
  | x :: xs =>
    if x = c then some ([], xs)
    else (splitOnce c xs).map (fun p => (x :: p.1, p.2))

/-- `XchainParseError`: unknown layer-1 tag before the colon, or an
inner seal parse error. -/
inductive XchainParseError (E : Type)
  | unknownPrefix (pfx : List Char)
  | sealErr (e : E)
  deriving DecidableEq, Repr

/-- `FromStr for XSeal<U>`, parameterised by the inner seal's parse
function: `"bitcoin:…"` and `"liquid:…"` pick the variant, any other
tag before the colon is `UnknownPrefix`, and a string without a colon
parses as the Bitcoin variant. -/
def XSeal.from_str {E U : Type} (parseInner : List Char → Except E U) (s : List Char) :
    Except (XchainParseError E) (XSeal U) :=
  match splitOnce ':' s with
  | some (pfx, rest) =>
    if pfx = "bitcoin".toList then
      match parseInner rest with
      | .ok u => .ok (.bitcoin u)
      | .error e => .error (.sealErr e)
    else if pfx = "liquid".toList then
      match parseInner rest with
      | .ok u => .ok (.liquid u)
      | .error e => .error (.sealErr e)
    else .error (.unknownPrefix pfx)
  | none =>
    match parseInner s with
    | .ok u => .ok (.bitcoin u)
    | .error e => .error (.sealErr e)

/-! ## Seal concealment (`src/contract/seal.rs`)

`impl CommitVerify<XSeal<U>, UntaggedProtocol> for SecretSeal` creates a
default SHA-256 engine, strict-encodes the revealed seal into it and
finalizes — with no tag input. -/

/-- Close-method tag byte of the strict encoding. -/
def CloseMethod.encodeByte : CloseMethod → Nat
  | .opretFirst => 0
  | .tapretFirst => 1

/-- Modelled from the spec: strict encoding of the txid-or-witness
pointer — a one-byte union tag, then the 32 txid bytes when concrete
(bp-core, outside this repository). -/
def TxPtr.strictEncode : TxPtr → List Nat
  | .witnessTx => [0]
  | .whole t => 1 :: t.bytes

/-- Modelled from the spec: strict encoding of a revealed blind seal —
close-method byte, txid-or-witness pointer, u32 LE vout, u64 LE
blinding nonce (bp-core `ChainBlindSeal`, outside this repository). -/
def GraphSeal.strictEncode (s : GraphSeal) : List Nat :=
  s.method.encodeByte :: s.txid.strictEncode ++ toBytesLE 4 s.vout ++ toBytesLE 8 s.blinding

/-- Strict encoding of `XSeal<GraphSeal>`: union tag byte 0
(Bitcoin) or 1 (Liquid), then the inner seal. -/
def XSeal.strictEncode : XSeal GraphSeal → List Nat
  | .bitcoin u => 0 :: u.strictEncode
  | .liquid u => 1 :: u.strictEncode

/-- Modelled from the spec: the commit-verify SHA-256 engine (outside
this repository) as the byte stream it has absorbed; `Sha256::default()`
starts empty, `finish` digests the absorbed stream. -/
structure Sha256Engine where
  absorbed : List Nat
  deriving DecidableEq, Repr

/-- `Sha256::default()`: a fresh engine with nothing absorbed. -/
def Sha256Engine.init : Sha256Engine := ⟨[]⟩

/-- Feed bytes to the engine (the `StrictWriter` writes the strict
encoding here). -/
def Sha256Engine.input (e : Sha256Engine) (bs : List Nat) : Sha256Engine :=
  ⟨e.absorbed ++ bs⟩

/-- `engine.finish()`: the SHA-256 digest of the absorbed stream. -/
def Sha256Engine.finish (e : Sha256Engine) : List Nat := sha256 e.absorbed

/-- `SecretSeal`: the concealed form of a seal, 32 digest bytes. -/
structure SecretSeal where
  bytes : List Nat
  deriving DecidableEq, Repr

/-- `SecretSeal::commit(reveal)`: strict-encode the revealed seal into
a default SHA-256 engine and finalize (untagged protocol). -/
def SecretSeal.commit (reveal : XSeal GraphSeal) : SecretSeal :=
  ⟨(Sha256Engine.init.input reveal.strictEncode).finish⟩

/-- `Conceal for XSeal<U>`: `conceal(&self) = SecretSeal::commit(self)`. -/
def XSeal.conceal (s : XSeal GraphSeal) : SecretSeal := SecretSeal.commit s

/-- The byte stream the concealment engine actually hashes. -/
def concealPreimage (s : XSeal GraphSeal) : List Nat :=
  (Sha256Engine.init.input s.strictEncode).absorbed

/-! ## Operation model (`src/contract/operations.rs`) -/

/-- Owned-right type identifier (u16). -/
abbrev OwnedRightType := Nat

/-- Field type identifier (u16). -/
abbrev FieldType := Nat

/-- Public-right type identifier (u16). -/
abbrev PublicRightType := Nat

/-- Transition type identifier (u16). -/
abbrev TransitionType := Nat

/-- Extension type identifier (u16). -/
abbrev ExtensionType := Nat

/-- `NodeId`: the 32-byte tagged commitment of a node. -/
structure NodeId where
  bytes : List Nat
  deriving DecidableEq, Repr

/-- `ContractId`: the 32-byte id of a contract (byte-equal to the
genesis `NodeId`). -/
structure ContractId where
  bytes : List Nat
  deriving DecidableEq, Repr

/-- `SchemaId`: the 32-byte commitment of a schema. -/
structure SchemaId where
  bytes : List Nat
  deriving DecidableEq, Repr

/-- Modelled from the spec: the chain/network parameter of a genesis
(bp `Chain`, outside this repository), as its strict-encoded bytes. -/
abbrev Chain := List Nat

/-- Modelled from the spec: node metadata — a map from field type to a
bounded list of typed field values, each value as its strict-encoded
bytes (`Metadata` and `data::Revealed` are outside this repository). -/
abbrev Metadata := List (FieldType × List (List Nat))

/-! ### Owned state (modelled from the spec §4.4; the
`contract::owned_state` module is outside this repository) -/

/-- The four per-state-type validation strategies. -/
inductive StateType
  | declarative
  | arithmetic
  | structuredData
  | attachment
  deriving DecidableEq, Repr

/-- Modelled from the spec: a confidential state value; the dynamic
type (constructor) is what the source's `dyn Any` downcasts inspect.
Declarative carries void, arithmetic a Pedersen commitment with its
range proof, structured a hash, attachment a commitment. -/
inductive ConfState
  | void
  | pedersen (commitment : List Nat) (rangeProof : List Nat)
  | hashed (digest : List Nat)
  | attach (commitment : List Nat)
  deriving DecidableEq, Repr

/-- Modelled from the spec: a revealed state value. Declarative carries
void, arithmetic a blinded amount, structured a strict-typed blob with
salt, attachment a content hash with MIME type and salt. -/
inductive RevState
  | void
  | pedersen (value : Nat) (blinding : List Nat)
  | structuredData (blob : List Nat) (salt : Nat)
  | attach (digest : List Nat) (mime : List Nat) (salt : Nat)
  deriving DecidableEq, Repr

/-- The strategy a confidential state value belongs to. -/
def ConfState.strategy : ConfState → StateType
  | .void => .declarative
  | .pedersen _ _ => .arithmetic
  | .hashed _ => .structuredData
  | .attach _ => .attachment

/-- The strategy a revealed state value belongs to. -/
def RevState.strategy : RevState → StateType
  | .void => .declarative
  | .pedersen _ _ => .arithmetic
  | .structuredData _ _ => .structuredData
  | .attach _ _ _ => .attachment

/-- Modelled from the spec: `Assignment` — the 2×2 cross-product of
(seal revealed?, state revealed?). -/
inductive Assignment
  | confidential (sl : SecretSeal) (state : ConfState)
  | confidentialState (sl : XSeal GraphSeal) (state : ConfState)
  | confidentialSeal (sl : SecretSeal) (state : RevState)
  | revealed (sl : XSeal GraphSeal) (state : RevState)
  deriving DecidableEq, Repr

/-- The state strategy of an assignment (the dynamic type of its state
value, confidential or revealed form alike). -/
def Assignment.strategy : Assignment → StateType
  | .confidential _ state => state.strategy
  | .confidentialState _ state => state.strategy
  | .confidentialSeal _ state => state.strategy
  | .revealed _ state => state.strategy

/-- Modelled from the spec: `TypedAssignments` — a tagged union over
the four state strategies, each carrying its assignment vector. -/
inductive TypedAssignments
  | declarative (xs : List Assignment)
  | fungible (xs : List Assignment)
  | structuredData (xs : List Assignment)
  | attachment (xs : List Assignment)
  deriving DecidableEq, Repr

/-- `OwnedRights`: map owned-right type → typed assignments. -/
abbrev OwnedRights := List (OwnedRightType × TypedAssignments)

/-- `PublicRights`: set of public-right types. -/
abbrev PublicRights := List PublicRightType

/-- `ParentOwnedRights`: map node id → owned-right type → output
indices. -/
abbrev ParentOwnedRights := List (NodeId × List (OwnedRightType × List Nat))

/-- `ParentPublicRights`: map node id → set of public-right types. -/
abbrev ParentPublicRights := List (NodeId × List PublicRightType)

/-- `Genesis`: schema id, chain, metadata, owned rights, public
rights. -/
structure Genesis where
  schema_id : SchemaId
  chain : Chain
  metadata : Metadata
  owned_rights : OwnedRights
  public_rights : PublicRights
  deriving DecidableEq, Repr

/-- `Transition`: transition type, metadata, parent owned rights, owned
rights, public rights. -/
structure Transition where
  transition_type : TransitionType
  metadata : Metadata
  parent_owned_rights : ParentOwnedRights
  owned_rights : OwnedRights
  public_rights : PublicRights
  deriving DecidableEq, Repr

/-- `Extension`: extension type, contract id, metadata, owned rights,
parent public rights, public rights. -/
structure Extension where
  extension_type : ExtensionType
  contract_id : ContractId
  metadata : Metadata
  owned_rights : OwnedRights
  parent_public_rights : ParentPublicRights
  public_rights : PublicRights
  deriving DecidableEq, Repr

/-! ### Strict encoding of nodes

Modelled from the spec §4.1 (the strict-encoding derive macros are
outside this repository): little-endian fixed-width integers, bounded
containers prefixed by the narrowest length word (u8 for the Tiny
collections), one-byte union tags, fields in declaration order. -/

/-- u16, little-endian. -/
def encodeU16 (n : Nat) : List Nat := toBytesLE 2 n

/-- A Tiny (≤255 elements) collection: u8 length, then the elements. -/
def encodeTiny {α : Type} (enc : α → List Nat) (xs : List α) : List Nat :=
  xs.length % 256 :: xs.flatMap enc

/-- A bounded byte blob: u16 length, then the bytes. -/
def encodeBlob (b : List Nat) : List Nat := encodeU16 b.length ++ b

/-- Strict encoding of metadata. -/
def Metadata.strictEncode (m : Metadata) : List Nat :=
  encodeTiny (fun kv => encodeU16 kv.1 ++ encodeTiny encodeBlob kv.2) m

/-- Strict encoding of a confidential state value. -/
def ConfState.strictEncode : ConfState → List Nat
  | .void => [0]
  | .pedersen commitment rangeProof => 1 :: (encodeBlob commitment ++ encodeBlob rangeProof)
  | .hashed digest => 2 :: encodeBlob digest
  | .attach commitment => 3 :: encodeBlob commitment

/-- Strict encoding of a revealed state value. -/
def RevState.strictEncode : RevState → List Nat
  | .void => [0]
  | .pedersen value blinding => 1 :: (toBytesLE 8 value ++ encodeBlob blinding)
  | .structuredData blob salt => 2 :: (encodeBlob blob ++ toBytesLE 8 salt)
  | .attach digest mime salt =>
    3 :: (encodeBlob digest ++ encodeBlob mime ++ toBytesLE 8 salt)

/-- Strict encoding of an assignment: variant tag byte, seal, state. -/
def Assignment.strictEncode : Assignment → List Nat
  | .confidential sl state => 0 :: (sl.bytes ++ state.strictEncode)
  | .confidentialState sl state => 1 :: (sl.strictEncode ++ state.strictEncode)
  | .confidentialSeal sl state => 2 :: (sl.bytes ++ state.strictEncode)
  | .revealed sl state => 3 :: (sl.strictEncode ++ state.strictEncode)

/-- Strict encoding of typed assignments: strategy tag byte, then the
assignment vector. -/
def TypedAssignments.strictEncode : TypedAssignments → List Nat
  | .declarative xs => 0 :: encodeTiny Assignment.strictEncode xs
  | .fungible xs => 1 :: encodeTiny Assignment.strictEncode xs
  | .structuredData xs => 2 :: encodeTiny Assignment.strictEncode xs
  | .attachment xs => 3 :: encodeTiny Assignment.strictEncode xs

/-- Strict encoding of owned rights. -/
def OwnedRights.strictEncode (o : OwnedRights) : List Nat :=
  encodeTiny (fun kv => encodeU16 kv.1 ++ kv.2.strictEncode) o

/-- Strict encoding of public rights. -/
def PublicRights.strictEncode (p : PublicRights) : List Nat :=
  encodeTiny encodeU16 p

/-- Strict encoding of parent owned rights. -/
def ParentOwnedRights.strictEncode (p : ParentOwnedRights) : List Nat :=
  encodeTiny
    (fun kv => kv.1.bytes ++ encodeTiny (fun tv => encodeU16 tv.1 ++ encodeTiny encodeU16 tv.2) kv.2)
    p

/-- Strict encoding of parent public rights. -/
def ParentPublicRights.strictEncode (p : ParentPublicRights) : List Nat :=
  encodeTiny (fun kv => kv.1.bytes ++ encodeTiny encodeU16 kv.2) p

/-- Strict encoding of a genesis, fields in declaration order. -/
def Genesis.strictEncode (g : Genesis) : List Nat :=
  g.schema_id.bytes ++ encodeBlob g.chain ++ g.metadata.strictEncode ++
  OwnedRights.strictEncode g.owned_rights ++ PublicRights.strictEncode g.public_rights

/-- Strict encoding of a transition, fields in declaration order. -/
def Transition.strictEncode (t : Transition) : List Nat :=
  encodeU16 t.transition_type ++ t.metadata.strictEncode ++
  ParentOwnedRights.strictEncode t.parent_owned_rights ++
  OwnedRights.strictEncode t.owned_rights ++ PublicRights.strictEncode t.public_rights

/-- Strict encoding of an extension, fields in declaration order. -/
def Extension.strictEncode (x : Extension) : List Nat :=
  encodeU16 x.extension_type ++ x.contract_id.bytes ++ x.metadata.strictEncode ++
  OwnedRights.strictEncode x.owned_rights ++
  ParentPublicRights.strictEncode x.parent_public_rights ++
  PublicRights.strictEncode x.public_rights

/-- The genesis commitment tag (`CommitmentId for Genesis`). -/
def GENESIS_TAG : List Nat := strBytes "urn:lnpbp:rgb:genesis:v01#202302"

/-- The transition commitment tag (`CommitmentId for Transition`). -/
def TRANSITION_TAG : List Nat := strBytes "urn:lnpbp:rgb:transition:v01#32A"

/-- The extension commitment tag (`CommitmentId for Extension`). -/
def EXTENSION_TAG : List Nat := strBytes "urn:lnpbp:rgb:extension:v01#2023"

/-- `Genesis::commitment_id()`: tagged commitment of the strict
encoding; its `Id` type is `ContractId`. -/
def Genesis.commitment_id (g : Genesis) : ContractId :=
  ⟨lnpbpTaggedHash GENESIS_TAG g.strictEncode⟩

/-- `Node::node_id` for `Genesis`: the commitment id's bytes rewrapped
as a `NodeId`. -/
def Genesis.node_id (g : Genesis) : NodeId := ⟨g.commitment_id.bytes⟩

/-- `Node::node_id` for `Transition`. -/
def Transition.node_id (t : Transition) : NodeId :=
  ⟨lnpbpTaggedHash TRANSITION_TAG t.strictEncode⟩

/-- `Node::node_id` for `Extension`. -/
def Extension.node_id (x : Extension) : NodeId :=
  ⟨lnpbpTaggedHash EXTENSION_TAG x.strictEncode⟩

/-- `NodeType`. -/
inductive NodeType
  | genesis
  | stateTransition
  | stateExtension
  deriving DecidableEq, Repr

/-- A node value: genesis, transition or extension (the dynamic `dyn
Node` view of the three implementing types). -/
inductive Op
  | genesis (g : Genesis)
  | transition (t : Transition)
  | extension (x : Extension)
  deriving DecidableEq, Repr

/-- The panic messages of the `Node` accessor implementations. -/
inductive PanicMsg
  | genesisCannotCloseSeals
  | extensionCannotCloseSeals
  | genesisCannotExtendState
  | transitionCannotExtendState
  deriving DecidableEq, Repr

/-- `Node::node_type`. -/
def Op.node_type : Op → NodeType
  | .genesis _ => .genesis
  | .transition _ => .stateTransition
  | .extension _ => .stateExtension

/-- `Node::node_id`. -/
def Op.node_id : Op → NodeId
  | .genesis g => g.node_id
  | .transition t => t.node_id
  | .extension x => x.node_id

/-- `Node::contract_id`: genesis rewraps its own node id bytes as a
`ContractId`; an extension returns its stored contract id; a transition
returns `none`. -/
def Op.contract_id : Op → Option ContractId
  | .genesis g => some ⟨g.node_id.bytes⟩
  | .transition _ => none
  | .extension x => some x.contract_id

/-- `Node::transition_type`. -/
def Op.transition_type : Op → Option TransitionType
  | .genesis _ => none
  | .transition t => some t.transition_type
  | .extension _ => none

/-- `Node::extension_type`. -/
def Op.extension_type : Op → Option ExtensionType
  | .genesis _ => none
  | .transition _ => none
  | .extension x => some x.extension_type

/-- `Node::metadata` (total for every node type). -/
def Op.metadata : Op → Metadata
  | .genesis g => g.metadata
  | .transition t => t.metadata
  | .extension x => x.metadata

/-- `Node::owned_rights` (total for every node type). -/
def Op.owned_rights : Op → OwnedRights
  | .genesis g => g.owned_rights
  | .transition t => t.owned_rights
  | .extension x => x.owned_rights

/-- `Node::public_rights` (total for every node type). -/
def Op.public_rights : Op → PublicRights
  | .genesis g => g.public_rights
  | .transition t => t.public_rights
  | .extension x => x.public_rights

/-- `Node::parent_owned_rights`: the genesis and extension
implementations execute `panic!` (modelled as `Except.error` with the
panic's message); only a transition returns its map. -/
def Op.parent_owned_rights : Op → Except PanicMsg ParentOwnedRights
  | .genesis _ => .error .genesisCannotCloseSeals
  | .transition t => .ok t.parent_owned_rights
  | .extension _ => .error .extensionCannotCloseSeals

/-- `Node::parent_public_rights`: the genesis and transition
implementations execute `panic!` (modelled as `Except.error` with the
panic's message); only an extension returns its map. -/
def Op.parent_public_rights : Op → Except PanicMsg ParentPublicRights
  | .genesis _ => .error .genesisCannotExtendState
  | .transition _ => .error .transitionCannotExtendState
  | .extension x => .ok x.parent_public_rights

/-! ## State-schema validation (`src/validation/state.rs`) -/

/-- `StateSchema` (from `crate::schema`, visible through its match arms
in `src/validation/state.rs`): the declared strategy of an owned-right
type. -/
inductive StateSchema
  | declarative
  | arithmetic (format : Nat)
  | structuredData (semid : List Nat)
  | attachment
  deriving DecidableEq, Repr

/-- The strategy a schema declares. -/
def StateSchema.strategy : StateSchema → StateType
  | .declarative => .declarative
  | .arithmetic _ => .arithmetic
  | .structuredData _ => .structuredData
  | .attachment => .attachment

/-- Modelled from the spec: the validation failures emitted by
`StateSchema::validate` (`validation::Failure`, outside this
repository). -/
inductive Failure
  | schemaMismatchedStateType (assignment_id : OwnedRightType)
  | invalidBulletproofs (node_id : NodeId) (assignment_id : OwnedRightType) (message : String)
  deriving DecidableEq, Repr

/-- Modelled from the spec: the informational entries emitted by
`StateSchema::validate` (`validation::Info`, outside this repository). -/
inductive ValInfo
  | uncheckableConfidentialStateData (node_id : NodeId) (assignment_id : OwnedRightType)
  deriving DecidableEq, Repr

/-- Modelled from the spec: the validation `Status` accumulator — three
lists (failures, warnings, infos); outside this repository. -/
structure Status where
  failures : List Failure
  warnings : List String
  infos : List ValInfo
  deriving DecidableEq, Repr

/-- `Status::new()`. -/
def Status.new : Status := ⟨[], [], []⟩

/-- `Status::add_failure`. -/
def Status.add_failure (s : Status) (f : Failure) : Status :=
  { s with failures := s.failures ++ [f] }

/-- `Status::add_info`. -/
def Status.add_info (s : Status) (i : ValInfo) : Status :=
  { s with infos := s.infos ++ [i] }

/-- `StateSchema::validate(node_id, assignment_id, data)`. The `dyn
Any` downcast of the source inspects the dynamic type of the state
value, here its constructor; the external Bulletproofs verifier
(`verify_range_proof`, outside this repository) is passed in as
`vrp`. -/
def StateSchema.validate (vrp : List Nat → List Nat → Except String Unit)
    (sch : StateSchema) (node_id : NodeId) (assignment_id : OwnedRightType)
    (data : Assignment) : Status :=
  let status := Status.new
  match data with
  | .confidential _ state | .confidentialState _ state =>
    match sch, state with
    | .declarative, .void => status
    | .declarative, _ => status.add_failure (.schemaMismatchedStateType assignment_id)
    | .arithmetic _, .pedersen commitment rangeProof =>
      (match vrp commitment rangeProof with
       | .ok _ => status
       | .error err => status.add_failure (.invalidBulletproofs node_id assignment_id err))
    | .arithmetic _, _ => status.add_failure (.schemaMismatchedStateType assignment_id)
    | .structuredData _, .hashed _ =>
      status.add_info (.uncheckableConfidentialStateData node_id assignment_id)
    | .structuredData _, _ => status.add_failure (.schemaMismatchedStateType assignment_id)
    | .attachment, .attach _ => status
    | .attachment, _ => status.add_failure (.schemaMismatchedStateType assignment_id)
  | .confidentialSeal _ state | .revealed _ state =>
    match sch, state with
    | .declarative, .void => status
    | .declarative, _ => status.add_failure (.schemaMismatchedStateType assignment_id)
    | .arithmetic _, .pedersen _ _ => status
    | .arithmetic _, _ => status.add_failure (.schemaMismatchedStateType assignment_id)
    | .structuredData _, .structuredData _ _ => status
    | .structuredData _, _ => status.add_failure (.schemaMismatchedStateType assignment_id)
    | .attachment, .attach _ _ _ => status
    | .attachment, _ => status.add_failure (.schemaMismatchedStateType assignment_id)

/-! ## Sample values used by witnesses and concrete evaluations -/

/-- A sample 32-byte txid. -/
def txidA : Txid := ⟨List.replicate 32 170⟩

/-- A sample 32-byte txid, distinct from `txidA`. -/
def txidB : Txid := ⟨List.replicate 32 187⟩

/-- A sample revealed seal whose txid is the witness placeholder. -/
def sealW : GraphSeal := ⟨.tapretFirst, .witnessTx, 3, 777⟩

/-- A sample revealed seal with a concrete txid. -/
def sealC : GraphSeal := ⟨.opretFirst, .whole txidB, 1, 42⟩

/-- A sample Bitcoin-tagged seal over the placeholder seal. -/
def xsealB0 : XSeal GraphSeal := .bitcoin sealW

/-- A sample Bitcoin witness id. -/
def widB : WitnessId := .bitcoin txidA

/-- A sample Liquid witness id. -/
def widL : WitnessId := .liquid txidA

/-- A sample genesis with empty collections. -/
def genesis0 : Genesis := ⟨⟨List.replicate 32 0⟩, [], [], [], []⟩

/-- A sample transition with empty collections. -/
def transition0 : Transition := ⟨0, [], [], [], []⟩

/-- A sample extension with empty collections. -/
def extension0 : Extension := ⟨0, ⟨List.replicate 32 7⟩, [], [], [], []⟩

/-- A sample node id. -/
def nodeId0 : NodeId := ⟨List.replicate 32 5⟩

/-- A range-proof verifier sample that accepts everything. -/
def vrpOk : List Nat → List Nat → Except String Unit := fun _ _ => .ok ()

/-- An inner seal parse sample that accepts everything (identity). -/
def parseAll : List Char → Except Unit (List Char) := fun s => .ok s

/-! # Theorems -/

theorem toBytesBE_length (k n : Nat) : (toBytesBE k n).length = k := by
  induction k generalizing n with
  | zero => rfl
  | succ k ih => simp [toBytesBE, ih]

theorem toBytesLE_length (k n : Nat) : (toBytesLE k n).length = k := by
  induction k generalizing n with
  | zero => rfl
  | succ k ih => simp [toBytesLE, ih]

/-- Every SHA-256 digest is exactly 32 bytes. -/
theorem sha256_length (msg : List Nat) : (sha256 msg).length = 32 := by
  simp [sha256, digestBytes, toBytesBE_length]

/-- Known-answer test: SHA-256 of the ASCII bytes of "abc" matches the
FIPS 180-4 example vector. -/
theorem sha256_abc :
    sha256 [97, 98, 99] =
      [186, 120, 22, 191, 143, 1, 207, 234,
       65, 65, 64, 222, 93, 174, 34, 35,
       176, 3, 97, 163, 150, 23, 122, 156,
       180, 16, 255, 97, 242, 0, 21, 173] := by
  decide

/-! ### Facts about `intCmp` -/

theorem intCmp_lt {a b : Int} (h : a < b) : intCmp a b = .lt := by
  unfold intCmp
  rw [if_pos h]

theorem intCmp_eq {a b : Int} (h : a = b) : intCmp a b = .eq := by
  unfold intCmp
  rw [if_neg (by omega), if_pos h]

theorem intCmp_gt {a b : Int} (h : b < a) : intCmp a b = .gt := by
  unfold intCmp
  rw [if_neg (by omega), if_neg (by omega)]

theorem intCmp_swap (a b : Int) : intCmp a b = (intCmp b a).swap := by
  rcases lt_trichotomy a b with h | h | h
  · rw [intCmp_lt h, intCmp_gt h]; rfl
  · rw [intCmp_eq h, intCmp_eq h.symm]; rfl
  · rw [intCmp_gt h, intCmp_lt h]; rfl

theorem intCmp_ne_gt {a b : Int} : intCmp a b ≠ .gt ↔ a ≤ b := by
  rcases lt_trichotomy a b with h | h | h
  · rw [intCmp_lt h]; simp; omega
  · rw [intCmp_eq h]; simp; omega
  · rw [intCmp_gt h]; simp; omega

/-! ### Claim C6 -/

/-- C6: The `WitnessOrd` comparison places every `OffChain` value
strictly above every `OnChain` value; two `OnChain` values compare by
the timestamps of their `WitnessPos` alone, so two positions sharing a
timestamp compare equal whatever their heights; and the comparison is
total (antisymmetric under swap) and transitive. -/
theorem C6_witnessOrd_total_order :
    (∀ p, WitnessOrd.cmp (.onChain p) .offChain = .lt) ∧
    (∀ p, WitnessOrd.cmp .offChain (.onChain p) = .gt) ∧
    (∀ p q, WitnessOrd.cmp (.onChain p) (.onChain q) = intCmp p.timestamp q.timestamp) ∧
    (∀ h h2 t, WitnessOrd.cmp (.onChain ⟨h, t⟩) (.onChain ⟨h2, t⟩) = .eq) ∧
    (∀ a b, WitnessOrd.cmp a b = (WitnessOrd.cmp b a).swap) ∧
    (∀ a b c, WitnessOrd.cmp a b ≠ .gt → WitnessOrd.cmp b c ≠ .gt →
      WitnessOrd.cmp a c ≠ .gt) := by
  refine ⟨fun p => rfl, fun p => rfl, fun p q => rfl, ?_, ?_, ?_⟩
  · intro h h2 t
    show WitnessPos.cmp ⟨h, t⟩ ⟨h2, t⟩ = .eq
    exact intCmp_eq rfl
  · intro a b
    cases a <;> cases b
    · exact intCmp_swap _ _
    · rfl
    · rfl
    · rfl
  · intro a b c hab hbc
    cases a <;> cases b <;> cases c <;>
      simp [WitnessOrd.cmp, WitnessPos.cmp, intCmp_ne_gt] at hab hbc ⊢
    omega

/-- Witness for C6 at concrete inputs. -/
theorem C6_witnessOrd_total_order_witness :
    WitnessOrd.cmp (.onChain ⟨100, 1300000000⟩) .offChain = .lt ∧
    WitnessOrd.cmp .offChain (.onChain ⟨100, 1300000000⟩) = .gt ∧
    WitnessOrd.cmp (.onChain ⟨100, 1300000000⟩) (.onChain ⟨200, 1300000000⟩) = .eq ∧
    WitnessOrd.cmp (.onChain ⟨100, 1300000000⟩) (.onChain ⟨200, 1400000000⟩) =
      (WitnessOrd.cmp (.onChain ⟨200, 1400000000⟩) (.onChain ⟨100, 1300000000⟩)).swap ∧
    WitnessOrd.cmp (.onChain ⟨100, 1300000000⟩) .offChain ≠ .gt :=
  ⟨C6_witnessOrd_total_order.1 _,
   C6_witnessOrd_total_order.2.1 _,
   C6_witnessOrd_total_order.2.2.2.1 100 200 1300000000,
   C6_witnessOrd_total_order.2.2.2.2.1 _ _,
   C6_witnessOrd_total_order.2.2.2.2.2 (.onChain ⟨100, 1300000000⟩)
     (.onChain ⟨200, 1400000000⟩) .offChain (by decide) (by decide)⟩

/-! ### Claim C7 -/

/-- C7: `WitnessPos::new(h, t)` succeeds exactly when `h ≠ 0` and
`t ≥ 1231006505`, returning the pair unchanged; in particular a zero
height or the timestamp 1231006504 are rejected and (1, 1231006505) is
accepted. -/
theorem C7_witnessPos_new :
    (∀ h t, (WitnessPos.new h t).isSome ↔ h ≠ 0 ∧ 1231006505 ≤ t) ∧
    (∀ h t p, WitnessPos.new h t = some p → p.height = h ∧ p.timestamp = t) ∧
    (∀ t, WitnessPos.new 0 t = none) ∧
    WitnessPos.new 1 1231006504 = none ∧
    WitnessPos.new 1 1231006505 = some ⟨1, 1231006505⟩ := by
  refine ⟨?_, ?_, ?_, by decide, by decide⟩
  · intro h t
    unfold WitnessPos.new
    by_cases hc : h = 0 ∨ t < 1231006505
    · rw [if_pos hc]; simp; omega
    · rw [if_neg hc]; simp; omega
  · intro h t p hp
    unfold WitnessPos.new at hp
    by_cases hc : h = 0 ∨ t < 1231006505
    · rw [if_pos hc] at hp; cases hp
    · rw [if_neg hc] at hp
      cases hp
      exact ⟨rfl, rfl⟩
  · intro t
    unfold WitnessPos.new
    rw [if_pos (Or.inl rfl)]

/-- Witness for C7 at concrete inputs. -/
theorem C7_witnessPos_new_witness :
    (WitnessPos.new 800000 1700000000).isSome ∧
    ((⟨800000, 1700000000⟩ : WitnessPos).height = 800000 ∧
     (⟨800000, 1700000000⟩ : WitnessPos).timestamp = 1700000000) :=
  ⟨(C7_witnessPos_new.1 800000 1700000000).mpr (by refine ⟨by decide, by decide⟩),
   C7_witnessPos_new.2.1 800000 1700000000 ⟨800000, 1700000000⟩ (by decide)⟩

/-! ### Claim C9 -/

/-- C9: `WitnessOrd::with_mempool_or_height(h, t)` is `OnChain(h, t)`
when the pair is a valid position and silently `OffChain` when `h = 0`
or `t < 1231006505`; `OffChain` is the value sorting above every
confirmed position. -/
theorem C9_with_mempool_or_height :
    (∀ h t, h ≠ 0 → 1231006505 ≤ t →
      WitnessOrd.with_mempool_or_height h t = .onChain ⟨h, t⟩) ∧
    (∀ h t, h = 0 ∨ t < 1231006505 →
      WitnessOrd.with_mempool_or_height h t = .offChain) ∧
    (∀ p, WitnessOrd.cmp .offChain (.onChain p) = .gt) := by
  refine ⟨?_, ?_, fun p => rfl⟩
  · intro h t h1 h2
    unfold WitnessOrd.with_mempool_or_height WitnessPos.new
    have hc : ¬(h = 0 ∨ t < 1231006505) := by omega
    rw [if_neg hc]
  · intro h t hc
    unfold WitnessOrd.with_mempool_or_height WitnessPos.new
    rw [if_pos hc]

/-- Witness for C9 at concrete inputs. -/
theorem C9_with_mempool_or_height_witness :
    WitnessOrd.with_mempool_or_height 800000 1700000000 = .onChain ⟨800000, 1700000000⟩ ∧
    WitnessOrd.with_mempool_or_height 0 1700000000 = .offChain ∧
    WitnessOrd.with_mempool_or_height 800000 0 = .offChain :=
  ⟨C9_with_mempool_or_height.1 800000 1700000000 (by decide) (by decide),
   C9_with_mempool_or_height.2.1 0 1700000000 (Or.inl rfl),
   C9_with_mempool_or_height.2.1 800000 0 (Or.inr (by decide))⟩

/-! ### Claim C10 -/

/-- C10: for every `WitnessPos` produced by `WitnessPos::new`, the
`NonZeroU32` conversion inside `height()` succeeds (the accessor cannot
panic); the guarantee does not extend to `WitnessPos` values built by
other means: a value with a zero height field makes the conversion
fail, so `height()` would panic there. -/
theorem C10_height_accessor :
    (∀ h t p, WitnessPos.new h t = some p → p.heightNonZero = some p.height) ∧
    (∃ q : WitnessPos, q.heightNonZero = none) := by
  constructor
  · intro h t p hp
    unfold WitnessPos.new at hp
    by_cases hc : h = 0 ∨ t < 1231006505
    · rw [if_pos hc] at hp; cases hp
    · rw [if_neg hc] at hp
      cases hp
      have hh : h ≠ 0 := by omega
      simp [WitnessPos.heightNonZero, hh]
  · exact ⟨⟨0, 1700000000⟩, rfl⟩

/-- Witness for C10 at a concrete input. -/
theorem C10_height_accessor_witness :
    (⟨800000, 1700000000⟩ : WitnessPos).heightNonZero = some 800000 :=
  C10_height_accessor.1 800000 1700000000 ⟨800000, 1700000000⟩ (by decide)

/-! ### Claim C5 -/

/-- C5: `try_to_output_seal` succeeds if and only if the seal's layer-1
variant equals the witness id's; on success the result is the explicit
output seal on the same layer whose outpoint substitutes the
witness-transaction placeholder with the witness txid; on mismatch it
returns `Err(self)`. -/
theorem C5_try_to_output_seal_spec :
    ∀ (s : XSeal GraphSeal) (w : WitnessId),
      ((∃ o, s.try_to_output_seal w = .ok o) ↔ s.layer1 = w.layer1) ∧
      (s.layer1 = w.layer1 →
        s.try_to_output_seal w =
          .ok (XSeal.withLayer1 s.layer1 ⟨s.inner.method, s.inner.outpointOr w.txid⟩)) ∧
      (s.layer1 ≠ w.layer1 → s.try_to_output_seal w = .error s) := by
  intro s w
  cases s <;> cases w <;>
    simp [XSeal.try_to_output_seal, XSeal.layer1, WitnessId.layer1, WitnessId.txid,
      XSeal.withLayer1, XSeal.inner]

/-- Witness for C5 at concrete inputs: a Bitcoin placeholder seal with
a Bitcoin witness id (placeholder substituted), and the same seal with
a Liquid witness id (rejected). -/
theorem C5_try_to_output_seal_witness :
    XSeal.try_to_output_seal xsealB0 widB =
      .ok (.bitcoin ⟨CloseMethod.tapretFirst, ⟨txidA, 3⟩⟩) ∧
    XSeal.try_to_output_seal xsealB0 widL = .error xsealB0 := by
  constructor
  · have h := (C5_try_to_output_seal_spec xsealB0 widB).2.1 rfl
    simpa [xsealB0, sealW, widB, XSeal.withLayer1, XSeal.inner, XSeal.layer1,
      WitnessId.txid, GraphSeal.outpointOr] using h
  · exact (C5_try_to_output_seal_spec xsealB0 widL).2.2 (by decide)

/-! ### Claim C8 -/

theorem splitOnce_of_not_mem {c : Char} {s : List Char} (h : c ∉ s) :
    splitOnce c s = none := by
  induction s with
  | nil => rfl
  | cons x xs ih =>
    simp only [List.mem_cons, not_or] at h
    have hx : x ≠ c := fun hxc => h.1 hxc.symm
    simp [splitOnce, hx, ih h.2]

theorem splitOnce_append {c : Char} {a : List Char} (b : List Char) (h : c ∉ a) :
    splitOnce c (a ++ c :: b) = some (a, b) := by
  induction a with
  | nil => simp [splitOnce]
  | cons x xs ih =>
    simp only [List.mem_cons, not_or] at h
    have hx : x ≠ c := fun hxc => h.1 hxc.symm
    simp [splitOnce, hx, ih h.2]

/-- C8: `XSeal::from_str` parses `"bitcoin:<inner>"` as the Bitcoin
variant and `"liquid:<inner>"` as the Liquid variant; any other tag
before the first colon fails with `UnknownPrefix` carrying that tag (in
particular `"xyz:deadbeef"`); a string with no colon parses as the
Bitcoin variant. -/
theorem C8_from_str_spec {E U : Type} (parseInner : List Char → Except E U) :
    (∀ rest, XSeal.from_str parseInner ("bitcoin".toList ++ ':' :: rest) =
      (match parseInner rest with
       | .ok u => .ok (.bitcoin u)
       | .error e => .error (.sealErr e))) ∧
    (∀ rest, XSeal.from_str parseInner ("liquid".toList ++ ':' :: rest) =
      (match parseInner rest with
       | .ok u => .ok (.liquid u)
       | .error e => .error (.sealErr e))) ∧
    (∀ pfx rest, ':' ∉ pfx → pfx ≠ "bitcoin".toList → pfx ≠ "liquid".toList →
      XSeal.from_str parseInner (pfx ++ ':' :: rest) =
        .error (.unknownPrefix pfx)) ∧
    (∀ s, ':' ∉ s → XSeal.from_str parseInner s =
      (match parseInner s with
       | .ok u => .ok (.bitcoin u)
       | .error e => .error (.sealErr e))) ∧
    XSeal.from_str parseInner "xyz:deadbeef".toList =
      .error (.unknownPrefix "xyz".toList) := by
  refine ⟨?_, ?_, ?_, ?_, ?_⟩
  · intro rest
    unfold XSeal.from_str
    rw [splitOnce_append rest (by decide)]
    simp
  · intro rest
    unfold XSeal.from_str
    rw [splitOnce_append rest (by decide)]
    simp
  · intro pfx rest h1 h2 h3
    unfold XSeal.from_str
    rw [splitOnce_append rest h1]
    have h2' : pfx ≠ ['b', 'i', 't', 'c', 'o', 'i', 'n'] := by simpa using h2
    have h3' : pfx ≠ ['l', 'i', 'q', 'u', 'i', 'd'] := by simpa using h3
    simp [h2', h3']
  · intro s hs
    unfold XSeal.from_str
    rw [splitOnce_of_not_mem hs]
  · rfl

/-- Witness for C8 at concrete inputs, with the identity inner parse. -/
theorem C8_from_str_witness :
    XSeal.from_str parseAll ("bitcoin".toList ++ ':' :: "rest".toList) =
      .ok (.bitcoin "rest".toList) ∧
    XSeal.from_str parseAll ("abc".toList ++ ':' :: "x".toList) =
      .error (.unknownPrefix "abc".toList) ∧
    XSeal.from_str parseAll "plain".toList = .ok (.bitcoin "plain".toList) := by
  refine ⟨?_, ?_, ?_⟩
  · have h := (C8_from_str_spec parseAll).1 "rest".toList
    simpa [parseAll] using h
  · exact (C8_from_str_spec parseAll).2.2.1 "abc".toList "x".toList
      (by decide) (by decide) (by decide)
  · have h := (C8_from_str_spec parseAll).2.2.2.1 "plain".toList (by decide)
    simpa [parseAll] using h

/-! ### Claim C2 -/

/-- C2 (counterexample): the claim is false as stated — there is no tag
for which `conceal` hashes the LNPBP doubled-tag preimage
`SHA256(tag) || SHA256(tag) || strict_encode(s)`: the stream the
engine absorbs is `strict_encode(s)` alone, 64 bytes shorter than any
doubled-tag preimage would be, as evaluation at the sample seal
`xsealB0` shows. -/
theorem C2_tagged_hash_refuted :
    ¬ ∃ tag : List Nat, ∀ s : XSeal GraphSeal,
        concealPreimage s = sha256 tag ++ sha256 tag ++ s.strictEncode := by
  rintro ⟨tag, htag⟩
  have h := congrArg List.length (htag xsealB0)
  simp [concealPreimage, Sha256Engine.init, Sha256Engine.input, sha256_length] at h
  omega

/-- C2 (amended): `conceal(s)` is the plain untagged SHA-256 of the
strict encoding of `s` — the default hash engine absorbs exactly
`strict_encode(s)`, with no tag prefix (`UntaggedProtocol`). -/
theorem C2_conceal_untagged_sha256 :
    ∀ s : XSeal GraphSeal,
      s.conceal = SecretSeal.commit s ∧
      (s.conceal).bytes = sha256 (concealPreimage s) ∧
      concealPreimage s = s.strictEncode := by
  intro s
  refine ⟨rfl, rfl, ?_⟩
  simp [concealPreimage, Sha256Engine.input, Sha256Engine.init]

/-! ### Claim C1 -/

/-- C1 (evaluation at the failing inputs): the `Node` accessors
`parent_owned_rights` on a genesis or extension and
`parent_public_rights` on a genesis or transition panic (modelled as
`Except.error` with the panic message) — they do not return a
structured failure or an empty map — while the transition and extension
implementations return their stored maps. -/
theorem C1_parent_rights_panic :
    Op.parent_owned_rights (.genesis genesis0) = .error .genesisCannotCloseSeals ∧
    Op.parent_owned_rights (.extension extension0) = .error .extensionCannotCloseSeals ∧
    Op.parent_public_rights (.genesis genesis0) = .error .genesisCannotExtendState ∧
    Op.parent_public_rights (.transition transition0) = .error .transitionCannotExtendState ∧
    Op.parent_owned_rights (.transition transition0) = .ok transition0.parent_owned_rights ∧
    Op.parent_public_rights (.extension extension0) = .ok extension0.parent_public_rights :=
  ⟨rfl, rfl, rfl, rfl, rfl, rfl⟩

/-! ### Claim C4 -/

/-- C4: `contract_id()` returns, for every genesis, `some` id byte-equal
to the genesis node id; for every extension, `some` of the stored
contract-id field; and `none` for every transition. -/
theorem C4_contract_id :
    (∀ g : Genesis, Op.contract_id (.genesis g) = some ⟨(Op.node_id (.genesis g)).bytes⟩ ∧
      (Op.contract_id (.genesis g)).map ContractId.bytes =
        some (Op.node_id (.genesis g)).bytes) ∧
    (∀ x : Extension, Op.contract_id (.extension x) = some x.contract_id) ∧
    (∀ t : Transition, Op.contract_id (.transition t) = none) :=
  ⟨fun _ => ⟨rfl, rfl⟩, fun _ => rfl, fun _ => rfl⟩

/-! ### Claim C3 -/

/-- C3: `StateSchema::validate` adds `SchemaMismatchedStateType` with
the assignment's owned-right type exactly when the assignment's state
strategy (over both confidential and revealed forms) differs from the
strategy declared by the schema; when the strategies match no
`SchemaMismatchedStateType` failure is produced — and every mismatch
failure it produces carries the given assignment id. -/
theorem C3_validate_mismatch_iff :
    ∀ (vrp : List Nat → List Nat → Except String Unit) (sch : StateSchema)
      (node_id : NodeId) (assignment_id : OwnedRightType) (data : Assignment),
      (Failure.schemaMismatchedStateType assignment_id ∈
          (StateSchema.validate vrp sch node_id assignment_id data).failures ↔
        data.strategy ≠ sch.strategy) ∧
      (∀ t2, Failure.schemaMismatchedStateType t2 ∈
          (StateSchema.validate vrp sch node_id assignment_id data).failures →
        t2 = assignment_id) := by
  intro vrp sch node_id assignment_id data
  cases data <;> rename_i sl st <;> cases sch <;> cases st <;>
    simp [StateSchema.validate, Status.new, Status.add_failure, Status.add_info,
      Assignment.strategy, ConfState.strategy, RevState.strategy, StateSchema.strategy]
  all_goals
    rename_i cm pf
    cases hv : vrp cm pf <;> simp [hv]

/-- Witness for C3 at concrete inputs: a declarative schema against an
arithmetic revealed state (mismatch reported), and an arithmetic schema
against the same state (no mismatch reported). -/
theorem C3_validate_mismatch_iff_witness :
    Failure.schemaMismatchedStateType 1 ∈
      (StateSchema.validate vrpOk .declarative nodeId0 1
        (.revealed (.bitcoin sealW) (.pedersen 5 [1, 2]))).failures ∧
    (Failure.schemaMismatchedStateType 1 ∈
      (StateSchema.validate vrpOk (.arithmetic 0) nodeId0 1
        (.revealed (.bitcoin sealW) (.pedersen 5 [1, 2]))).failures → False) := by
  have h1 := C3_validate_mismatch_iff vrpOk .declarative nodeId0 1
    (.revealed (.bitcoin sealW) (.pedersen 5 [1, 2]))
  have h2 := C3_validate_mismatch_iff vrpOk (.arithmetic 0) nodeId0 1
    (.revealed (.bitcoin sealW) (.pedersen 5 [1, 2]))
  exact ⟨h1.1.mpr (by decide), fun hmem => (h2.1.mp hmem) (by decide)⟩

end RGBCore
